import Mathlib

/-!
Verification of the emotion-to-playlist recommendation engine
(`MusicRecommender` in `recommendation.py`).

The Python class is shallowly embedded: dictionaries returned to callers
become a `Playlist` record with `Option`-valued fields for keys that may be
absent from the dict; the Spotify client is an oracle function from
`(query, limit)` to either an exception (`Except.error`) or the list of
playlist items of the response (`results['playlists']['items']`, whose
elements may be `None`); the two boolean-ish attributes of the class
(`spotify_client`, `spotify_configured`) form the engine state.
Python truthiness of strings and string-valued dict slots is modelled
explicitly (`strTruthy`, `optTruthy`), and `list[:limit]` is modelled with
Python slice semantics for negative bounds (`pySlice`).
-/

/-- A playlist entry as returned by `get_recommended_playlists`.
Static catalog stubs carry only `name` and `id`; provider-search entries and
enriched entries carry more keys.  A field is `none` when the Python dict
lacks the key (or holds `None`). -/
structure Playlist where
  name : String
  id : Option String
  url : Option String
  description : Option String
  tracksTotal : Option Nat
  source : Option String
  language : Option String
deriving DecidableEq

/-- A raw playlist item of a Spotify search response, after the defensive
`or {}` / `.get` chains: `id`, `name`, `description`, `external_urls['spotify']`
and `tracks['total']` may each be absent. -/
structure SpotifyItem where
  id : Option String
  name : Option String
  spotifyUrl : Option String
  description : Option String
  tracksTotal : Option Nat
deriving DecidableEq

/-- Oracle for `self.spotify_client.search(q=q, type='playlist', limit=l, market='IN')`:
given the query string and the limit, either raises (`Except.error`) or returns
the item list of the response (items may be `None`). -/
def Search : Type := String → Int → Except Unit (List (Option SpotifyItem))

/-- Engine state: the two instance attributes set by `__init__` and
`setup_spotify` (`spotify_client` abstracted to presence of a client object). -/
structure RecState where
  spotify_client : Bool
  spotify_configured : Bool
deriving DecidableEq

/-- State after `__init__`: no client, not configured. -/
def initState : RecState := ⟨false, false⟩

/-- Python truthiness of a string: empty is falsy. -/
def strTruthy (s : String) : Bool := s ≠ ""

/-- Python truthiness of an optional string slot: `None` and `''` are falsy. -/
def optTruthy : Option String → Bool
  | none => false
  | some s => strTruthy s

/-- Python `a or b` for string slots (used for `item.get('id') or p.get('id')`). -/
def pyOrOpt (a b : Option String) : Option String :=
  if optTruthy a then a else b

/-- Python `s or d` where `s` is an optional string and `d` a string
(used for `lang or 'auto'`). -/
def pyOrStr (a : Option String) (d : String) : String :=
  match a with
  | none => d
  | some s => if s = "" then d else s

/-- Python `lst[:stop]` for an `int` stop: a negative stop counts from the
end, clamped at zero. -/
def pySlice {α : Type} (l : List α) (stop : Int) : List α :=
  if 0 ≤ stop then l.take stop.toNat
  else l.take ((l.length : Int) + stop).toNat

/-- Per-emotion record of `self.emotion_to_genre`. -/
structure EmotionInfo where
  genres : List String
  mood : String
  energy : String
  description : String
deriving DecidableEq

/-- `self.emotion_to_genre.get(emotion)` — the 7-key dict from `__init__`. -/
def emotion_to_genre (emotion : String) : Option EmotionInfo :=
  if emotion = "happy" then
    some ⟨["pop", "dance", "electronic"], "upbeat", "high",
      "Upbeat and energetic music to match your happy mood!"⟩
  else if emotion = "sad" then
    some ⟨["acoustic", "chill", "ambient"], "calm", "low",
      "Calming and soothing music to comfort your mood."⟩
  else if emotion = "angry" then
    some ⟨["rock", "metal", "punk"], "intense", "high",
      "Powerful and intense music to channel your energy!"⟩
  else if emotion = "fear" then
    some ⟨["ambient", "classical", "instrumental"], "peaceful", "low",
      "Peaceful and calming music to help you relax."⟩
  else if emotion = "surprise" then
    some ⟨["electronic", "funk", "disco"], "energetic", "high",
      "Energetic and fun music to match your surprise!"⟩
  else if emotion = "disgust" then
    some ⟨["alternative", "indie", "experimental"], "unique", "medium",
      "Unique and interesting music for your mood."⟩
  else if emotion = "neutral" then
    some ⟨["lo-fi", "instrumental", "jazz"], "relaxed", "medium",
      "Relaxed and chill music for your neutral mood."⟩
  else none

/-- `get_emotion_info`: dict lookup with the generic fallback profile. -/
def get_emotion_info (emotion : String) : EmotionInfo :=
  (emotion_to_genre emotion).getD
    ⟨["pop"], "neutral", "medium", "Music to match your current mood."⟩

/-- A static catalog stub: only `name` and `id` keys. -/
def stub (name id : String) : Playlist :=
  ⟨name, some id, none, none, none, none, none⟩

/-- `self.default_playlists.get(emotion, [])` — the per-emotion static catalog. -/
def default_playlists (emotion : String) : List Playlist :=
  if emotion = "happy" then
    [stub "Happy Hits" "37i9dQZF1DX3XNs9D5lWnM",
     stub "Dance Party" "37i9dQZF1DXcBWIGoYBM5M",
     stub "Pop Mix" "37i9dQZF1DXcF6B6QPhFDv"]
  else if emotion = "sad" then
    [stub "Chill Vibes" "37i9dQZF1DX4WYpdgoIcn6",
     stub "Acoustic Covers" "37i9dQZF1DX5Vy6DFOcx00",
     stub "Peaceful Piano" "37i9dQZF1DX7KNKjOK0o75"]
  else if emotion = "angry" then
    [stub "Rock Classics" "37i9dQZF1DX5Vy6DFOcx00",
     stub "Metal Essentials" "37i9dQZF1DX5Vy6DFOcx00",
     stub "Punk Rock" "37i9dQZF1DX5Vy6DFOcx00"]
  else if emotion = "fear" then
    [stub "Ambient Relaxation" "37i9dQZF1DX5Vy6DFOcx00",
     stub "Classical Music" "37i9dQZF1DX5Vy6DFOcx00",
     stub "Nature Sounds" "37i9dQZF1DX5Vy6DFOcx00"]
  else if emotion = "surprise" then
    [stub "Electronic Beats" "37i9dQZF1DX5Vy6DFOcx00",
     stub "Funk & Soul" "37i9dQZF1DX5Vy6DFOcx00",
     stub "Disco Hits" "37i9dQZF1DX5Vy6DFOcx00"]
  else if emotion = "disgust" then
    [stub "Alternative Rock" "37i9dQZF1DX5Vy6DFOcx00",
     stub "Indie Vibes" "37i9dQZF1DX5Vy6DFOcx00",
     stub "Experimental" "37i9dQZF1DX5Vy6DFOcx00"]
  else if emotion = "neutral" then
    [stub "Lo-Fi Beats" "37i9dQZF1DX5Vy6DFOcx00",
     stub "Instrumental" "37i9dQZF1DX5Vy6DFOcx00",
     stub "Jazz Vibes" "37i9dQZF1DX5Vy6DFOcx00"]
  else []

/-- `self.default_playlists_by_language.get(lang)`: `some` of the inner
per-emotion dict (itself modelled via `.get(emotion, [])`) for the four
language keys, `none` otherwise. -/
def default_playlists_by_language (lang : String) : Option (String → List Playlist) :=
  if lang = "telugu" then some (fun emotion =>
    if emotion = "happy" then [stub "Telugu Party" "37i9dQZF1DX0XUfTFmNBRM"]
    else if emotion = "sad" then [stub "Telugu Melodies" "37i9dQZF1DX8HU1L2vQ4dH"]
    else if emotion = "neutral" then [stub "Telugu Chill" "37i9dQZF1DXbYFKu7Gx0xK"]
    else if emotion = "angry" then [stub "Telugu Rock Mix" "37i9dQZF1DX8z1uyQZB0QG"]
    else if emotion = "surprise" then [stub "Telugu Electronic" "37i9dQZF1DX9tPFwDMOaN1"]
    else [])
  else if lang = "tamil" then some (fun emotion =>
    if emotion = "happy" then [stub "Tamil Hits" "37i9dQZF1DX72V5L1FZ8V2"]
    else if emotion = "sad" then [stub "Tamil Melodies" "37i9dQZF1DXbJx0B3bKcEb"]
    else if emotion = "neutral" then [stub "Tamil Chill" "37i9dQZF1DX0XUY2hEjrCW"]
    else if emotion = "angry" then [stub "Tamil Rock Mix" "37i9dQZF1DX2bI3oPAWZ2U"]
    else if emotion = "surprise" then [stub "Tamil Electronic" "37i9dQZF1DX2i3gd2hGRqy"]
    else [])
  else if lang = "kannada" then some (fun emotion =>
    if emotion = "happy" then [stub "Kannada Party" "37i9dQZF1DX0hWmn8d5pRe"]
    else if emotion = "sad" then [stub "Kannada Melodies" "37i9dQZF1DXd1Bo4QJ3nxb"]
    else if emotion = "neutral" then [stub "Kannada Chill" "37i9dQZF1DX8O2z5Vd2G8X"]
    else if emotion = "angry" then [stub "Kannada Rock Mix" "37i9dQZF1DX4jSp9oQ7G5D"]
    else if emotion = "surprise" then [stub "Kannada Electronic" "37i9dQZF1DX7RZ9k1l0Qj7"]
    else [])
  else if lang = "hindi" then some (fun emotion =>
    if emotion = "happy" then [stub "Bollywood Dance" "37i9dQZF1DXdFesNN9TzXt"]
    else if emotion = "sad" then [stub "Bollywood Melancholy" "37i9dQZF1DX7K31D69s4M1"]
    else if emotion = "neutral" then [stub "Lo-fi Hindi" "37i9dQZF1DX4wta20PHgwo"]
    else if emotion = "angry" then [stub "Hindi Rock Mix" "37i9dQZF1DX7cLxqtNO3zl"]
    else if emotion = "surprise" then [stub "Hindi Electronic" "37i9dQZF1DX1i0j9Jz3Z4U"]
    else [])
  else none

/-- ASCII whitespace recognized by Python `str.strip()`. -/
def chIsSpace (c : Char) : Bool :=
  c = ' ' ∨ c = '\t' ∨ c = '\n' ∨ c = '\r' ∨ c = '\x0b' ∨ c = '\x0c'

/-- Python `str.strip()` (ASCII whitespace), over the character list. -/
def pyStrip (s : String) : String :=
  ⟨(((s.data.dropWhile chIsSpace).reverse).dropWhile chIsSpace).reverse⟩

/-- Python `str.lower()`, over the character list. -/
def pyLower (s : String) : String :=
  ⟨s.data.map Char.toLower⟩

/-- The `aliases.get(lang, lang)` table of `_language_normalize`. -/
def language_aliases (lang : String) : String :=
  if lang = "telegu" then "telugu"
  else if lang = "bangla" then "bengali"
  else if lang = "hindhi" then "hindi"
  else lang

/-- `_language_normalize`: `None`/`''` stays falsy (returned as `none` only
for the `if not language` guard, so `' '` normalizes to `some ""`); otherwise
strip, lowercase, and resolve aliases. -/
def language_normalize (language : Option String) : Option String :=
  match language with
  | none => none
  | some s =>
    if s = "" then none
    else some (language_aliases (pyLower (pyStrip s)))

/-- `_language_defaults(emotion, language)`. -/
def language_defaults (emotion : String) (language : Option String) : List Playlist :=
  match language_normalize language with
  | none => []
  | some lang =>
    if lang = "" then []
    else
      match default_playlists_by_language lang with
      | none => []
      | some m => m emotion

/-- Probe oracle for `setup_spotify`'s connectivity test
(`self.spotify_client.user_playlists('spotify')`, together with client
construction): the outcome for a given credential pair. -/
def Probe : Type := String → String → Except Unit Unit

/-- `setup_spotify(client_id, client_secret)`: on truthy credentials the
client is assigned first, then the probe runs; a raised probe leaves
`spotify_configured` untouched but the (broken) client assigned.  Returns the
method's boolean result together with the new state. -/
def setup_spotify (st : RecState) (probe : Probe)
    (client_id client_secret : String) : Bool × RecState :=
  if strTruthy client_id ∧ strTruthy client_secret then
    let st1 : RecState := { st with spotify_client := true }
    match probe client_id client_secret with
    | Except.ok _ => (true, { st1 with spotify_configured := true })
    | Except.error _ => (false, st1)
  else
    (false, st)

/-- Builds the `found` entry of the search pass from a response item whose
`id` was truthy and unseen. -/
def item_to_playlist (langField : String) (pid : String) (it : SpotifyItem) : Playlist :=
  { name := it.name.getD "Playlist"
    id := some pid
    url := it.spotifyUrl
    description := some (it.description.getD "")
    tracksTotal := it.tracksTotal
    source := some "Spotify"
    language := some langField }

/-- Inner `for item in items` loop of the search pass: skip `None` items and
falsy or already-seen ids, append otherwise, and stop as soon as
`len(found) >= limit`.  Returns the updated seen-id set and `found` list. -/
def collect_items (limit : Int) (langField : String) :
    List (Option SpotifyItem) → List String → List Playlist →
    List String × List Playlist
  | [], seen, found => (seen, found)
  | none :: rest, seen, found => collect_items limit langField rest seen found
  | some it :: rest, seen, found =>
    match it.id with
    | none => collect_items limit langField rest seen found
    | some pid =>
      if pid = "" ∨ pid ∈ seen then collect_items limit langField rest seen found
      else
        let found1 := found ++ [item_to_playlist langField pid it]
        if limit ≤ (found1.length : Int) then (pid :: seen, found1)
        else collect_items limit langField rest (pid :: seen) found1

/-- Outer `for q in queries` loop of the search pass: each provider call may
raise, which aborts the whole pass (the `except` around it discards `found`).
Stops early once `len(found) >= limit`. -/
def gather (search : Search) (limit : Int) (langField : String) :
    List String → List String → List Playlist → Except Unit (List Playlist)
  | [], _, found => Except.ok found
  | q :: qs, seen, found =>
    match search q limit with
    | Except.error e => Except.error e
    | Except.ok items =>
      let sf := collect_items limit langField items seen found
      if limit ≤ (sf.2.length : Int) then Except.ok sf.2
      else gather search limit langField qs sf.1 sf.2

/-- The ordered query list of the search pass. -/
def build_queries (emotion : String) (info : EmotionInfo)
    (lang : Option String) : List String :=
  if optTruthy lang then
    let l := lang.getD ""
    [l ++ " " ++ info.mood ++ " music", l ++ " " ++ emotion ++ " playlist"]
      ++ (info.genres.take 2).map (fun g => l ++ " " ++ g ++ " playlist")
  else
    [emotion ++ " " ++ info.mood ++ " music"]

/-- Search pass (step guarded by `self.spotify_configured and self.spotify_client`):
on success with a nonempty `found`, prepend it to the seeded list; on a raised
provider error, keep the seed. -/
def search_step (st : RecState) (search : Search) (emotion : String)
    (limit : Int) (language : Option String) (seeded : List Playlist) :
    List Playlist :=
  if st.spotify_configured ∧ st.spotify_client then
    let info := get_emotion_info emotion
    let lang := language_normalize language
    let queries := build_queries emotion info lang
    let langField := pyOrStr lang "auto"
    match gather search limit langField queries [] [] with
    | Except.error _ => seeded
    | Except.ok found => if found ≠ [] then found ++ seeded else seeded
  else seeded

/-- Per-entry body of the enrichment pass: entries lacking a truthy `url`
but carrying a truthy `name` get a best-effort limit-1 name search; a raised
provider call propagates (aborting the whole pass). -/
def enrich_one (search : Search) (lang : String) (p : Playlist) :
    Except Unit Playlist :=
  if ¬ optTruthy p.url ∧ strTruthy p.name then
    let q := if lang ≠ "auto" then lang ++ " " ++ p.name else p.name
    match search q 1 with
    | Except.error e => Except.error e
    | Except.ok items =>
      match items with
      | [] => Except.ok p
      | it0 :: _ =>
        let it := it0.getD ⟨none, none, none, none, none⟩
        let resolved_id := pyOrOpt it.id p.id
        if optTruthy resolved_id ∧ optTruthy it.spotifyUrl then
          Except.ok { p with
            id := resolved_id
            url := it.spotifyUrl
            tracksTotal := it.tracksTotal
            source := some (p.source.getD "Default")
            language := some (p.language.getD lang) }
        else Except.ok p
  else Except.ok p

/-- The `for p in playlists` enrichment loop, in the `Except` monad: any
raised provider call discards the partially built `enriched` list. -/
def enrich_list (search : Search) (lang : String) :
    List Playlist → Except Unit (List Playlist)
  | [] => Except.ok []
  | p :: ps =>
    match enrich_one search lang p with
    | Except.error e => Except.error e
    | Except.ok p1 =>
      match enrich_list search lang ps with
      | Except.error e => Except.error e
      | Except.ok ps1 => Except.ok (p1 :: ps1)

/-- Enrichment pass with its configuration guard and `except: pass` recovery. -/
def enrich_step (st : RecState) (search : Search) (language : Option String)
    (playlists : List Playlist) : List Playlist :=
  if st.spotify_configured ∧ st.spotify_client then
    let lang := pyOrStr (language_normalize language) "auto"
    match enrich_list search lang playlists with
    | Except.error _ => playlists
    | Except.ok l => l
  else playlists

/-- The opening emotion normalization of `get_recommended_playlists`:
`if emotion not in self.emotion_to_genre: emotion = 'neutral'`. -/
def normalize_emotion (emotion : String) : String :=
  if (emotion_to_genre emotion).isSome then emotion else "neutral"

/-- `get_recommended_playlists(emotion, limit, language)`: normalize the
emotion, seed with generic defaults, prepend localized defaults when present,
run the search and enrichment passes when configured, and slice to `limit`. -/
def get_recommended_playlists (st : RecState) (search : Search)
    (emotion : String) (limit : Int) (language : Option String) :
    List Playlist :=
  let e := normalize_emotion emotion
  let seed := default_playlists e
  let lang_defaults := language_defaults e language
  let seeded := if lang_defaults ≠ [] then lang_defaults ++ seed else seed
  let after_search := search_step st search e limit language seeded
  let after_enrich := enrich_step st search language after_search
  pySlice after_enrich limit

/-- The method together with the engine state it leaves behind: the Python
body of `get_recommended_playlists` never assigns to `self` (its `found`,
`seen_ids` and `enriched` are locals), so the state passes through unchanged. -/
def get_recommended_playlists_run (st : RecState) (search : Search)
    (emotion : String) (limit : Int) (language : Option String) :
    List Playlist × RecState :=
  (get_recommended_playlists st search emotion limit language, st)

/-- A provider oracle that always answers with an empty item list. -/
def noResults : Search := fun _ _ => Except.ok []

/-- The configured-engine state reached by a successful `setup_spotify`. -/
def cfgState : RecState := ⟨true, true⟩

/-- The result of the static-only path (provider passes skipped): localized
defaults ahead of generic defaults, sliced to `limit`. -/
def static_recommendation (emotion : String) (limit : Int)
    (language : Option String) : List Playlist :=
  let e := normalize_emotion emotion
  let seed := default_playlists e
  let lang_defaults := language_defaults e language
  pySlice (if lang_defaults ≠ [] then lang_defaults ++ seed else seed) limit

/-- The source label the dashboard shows for an entry:
`playlist.get('source', 'Default')` (src/app.py lines 618 and 700). -/
def source_display (p : Playlist) : String := p.source.getD "Default"

/-- Whether a language string resolves (after normalization) to a key of the
localized catalog. -/
def language_recognized (s : String) : Bool :=
  match language_normalize (some s) with
  | none => false
  | some l => (default_playlists_by_language l).isSome

/-- A probe that always raises (provider unreachable / bad credentials). -/
def failProbe : Probe := fun _ _ => Except.error ()

/-- A probe that always succeeds. -/
def okProbe : Probe := fun _ _ => Except.ok ()

/-- A concrete provider search hit used in counterexamples. -/
def itemPX1 : SpotifyItem :=
  ⟨some "PX1", some "Prov Mix", some "https://open.spotify.com/playlist/PX1", some "", some 5⟩

/-- Oracle answering only the first telugu/happy query with one hit. -/
def oracleC1 : Search := fun q _ =>
  if q = "telugu upbeat music" then Except.ok [some itemPX1] else Except.ok []

/-- A concrete provider search hit used in counterexamples. -/
def itemKX1 : SpotifyItem :=
  ⟨some "KX1", some "Klingon Beats", some "https://open.spotify.com/playlist/KX1", some "", some 10⟩

/-- Oracle answering only an unrecognized-language query with one hit. -/
def oracleC6 : Search := fun q _ =>
  if q = "klingon upbeat music" then Except.ok [some itemKX1] else Except.ok []

/-- A concrete provider search hit used in counterexamples. -/
def itemAX1 : SpotifyItem :=
  ⟨some "AX1", some "Angry Search Mix", some "https://open.spotify.com/playlist/AX1", some "", some 7⟩

/-- Oracle returning the same hit (same id) for two different queries of the
telugu/angry search pass: overlapping ids across queries. -/
def oracleC4 : Search := fun q _ =>
  if q = "telugu intense music" ∨ q = "telugu angry playlist" then
    Except.ok [some itemAX1]
  else Except.ok []

/-- With `spotify_configured` false both provider passes are skipped and the
call is the static-only assembly. -/
lemma get_rec_unconfigured (st : RecState) (search : Search) (emotion : String)
    (limit : Int) (language : Option String)
    (h : st.spotify_configured = false) :
    get_recommended_playlists st search emotion limit language =
      static_recommendation emotion limit language := by
  simp [get_recommended_playlists, static_recommendation, search_step,
    enrich_step, h]

/-- `pySlice` commutes with `List.map`. -/
lemma pySlice_map {α β : Type} (f : α → β) (l : List α) (stop : Int) :
    (pySlice l stop).map f = pySlice (l.map f) stop := by
  unfold pySlice
  split <;> simp [List.map_take]

/-- A successful `enrich_one` keeps `name` and `description`. -/
lemma enrich_one_ok (search : Search) (lang : String) (p p' : Playlist)
    (h : enrich_one search lang p = Except.ok p') :
    p'.name = p.name ∧ p'.description = p.description := by
  unfold enrich_one at h
  dsimp only at h
  repeat' split at h
  all_goals first
    | (cases h; exact ⟨rfl, rfl⟩)
    | simp at h

/-- A successful `enrich_list` keeps the name and description sequences. -/
lemma enrich_list_ok (search : Search) (lang : String) :
    ∀ (ps qs : List Playlist), enrich_list search lang ps = Except.ok qs →
      qs.map Playlist.name = ps.map Playlist.name ∧
        qs.map Playlist.description = ps.map Playlist.description := by
  intro ps
  induction ps with
  | nil =>
    intro qs h
    unfold enrich_list at h
    cases h
    exact ⟨rfl, rfl⟩
  | cons p rest ih =>
    intro qs h
    unfold enrich_list at h
    cases h1 : enrich_one search lang p with
    | error e => rw [h1] at h; exact absurd h (by simp)
    | ok p1 =>
      rw [h1] at h
      cases h2 : enrich_list search lang rest with
      | error e => rw [h2] at h; exact absurd h (by simp)
      | ok rest1 =>
        rw [h2] at h
        cases h
        have hone := enrich_one_ok search lang p p1 h1
        have hrest := ih rest1 h2
        simp [hone.1, hone.2, hrest.1, hrest.2]

/-- The enrichment pass keeps the name sequence. -/
lemma enrich_step_names (st : RecState) (search : Search)
    (language : Option String) (ps : List Playlist) :
    (enrich_step st search language ps).map Playlist.name =
      ps.map Playlist.name := by
  unfold enrich_step
  split
  · cases h2 : enrich_list search (pyOrStr (language_normalize language) "auto") ps with
    | error e => simp [h2]
    | ok l => simpa [h2] using
        (enrich_list_ok search (pyOrStr (language_normalize language) "auto") ps l h2).1
  · rfl

/-- The enrichment pass keeps the description sequence. -/
lemma enrich_step_descriptions (st : RecState) (search : Search)
    (language : Option String) (ps : List Playlist) :
    (enrich_step st search language ps).map Playlist.description =
      ps.map Playlist.description := by
  unfold enrich_step
  split
  · cases h2 : enrich_list search (pyOrStr (language_normalize language) "auto") ps with
    | error e => simp [h2]
    | ok l => simpa [h2] using
        (enrich_list_ok search (pyOrStr (language_normalize language) "auto") ps l h2).2
  · rfl

/-- Invariant of the inner item loop: if the accumulated `found` list has
pairwise distinct ids and every id it holds is in `seen`, the same holds of
the loop's output, and `seen` only grows. -/
lemma collect_items_inv (limit : Int) (langField : String) :
    ∀ (items : List (Option SpotifyItem)) (seen : List String)
      (found : List Playlist),
      (found.filterMap Playlist.id).Nodup →
      (∀ p ∈ found, ∀ i, p.id = some i → i ∈ seen) →
      ((collect_items limit langField items seen found).2.filterMap Playlist.id).Nodup ∧
        (∀ p ∈ (collect_items limit langField items seen found).2, ∀ i,
          p.id = some i → i ∈ (collect_items limit langField items seen found).1) ∧
        (∀ s ∈ seen, s ∈ (collect_items limit langField items seen found).1) := by
  intro items
  induction items with
  | nil =>
    intro seen found h1 h2
    exact ⟨h1, h2, fun s hs => hs⟩
  | cons hd rest ih =>
    intro seen found h1 h2
    match hd with
    | none => exact ih seen found h1 h2
    | some it =>
      cases hid : it.id with
      | none => simpa [collect_items, hid] using ih seen found h1 h2
      | some pid =>
        by_cases hseen : pid = "" ∨ pid ∈ seen
        · simpa [collect_items, hid, hseen] using ih seen found h1 h2
        · have hpidnew : pid ∉ seen := fun hc => hseen (Or.inr hc)
          have hpidfound : pid ∉ found.filterMap Playlist.id := by
            intro hc
            rcases List.mem_filterMap.mp hc with ⟨p, hp, hpid⟩
            exact hpidnew (h2 p hp pid hpid)
          have hdisj : ∀ x ∈ found, ¬ x.id = some pid := fun x hx hc =>
            hpidfound (List.mem_filterMap.mpr ⟨x, hx, hc⟩)
          have h1' : ((found ++ [item_to_playlist langField pid it]).filterMap
              Playlist.id).Nodup := by
            simpa [List.filterMap_append, item_to_playlist, List.nodup_append]
              using ⟨h1, hdisj⟩
          have h2' : ∀ p ∈ found ++ [item_to_playlist langField pid it], ∀ i,
              p.id = some i → i ∈ pid :: seen := by
            intro p hp i hpi
            rcases List.mem_append.mp hp with hp | hp
            · exact List.mem_cons_of_mem _ (h2 p hp i hpi)
            · have : p = item_to_playlist langField pid it := by simpa using hp
              subst this
              have : i = pid := by
                simpa [item_to_playlist] using hpi.symm
              subst this
              exact List.mem_cons_self _ _
          by_cases hlim : limit ≤ ((found ++ [item_to_playlist langField pid it]).length : Int)
          · refine ⟨?_, ?_, ?_⟩ <;>
              simp only [collect_items, hid, if_neg hseen, if_pos hlim]
            · exact h1'
            · exact h2'
            · exact fun s hs => List.mem_cons_of_mem _ hs
          · have hrec := ih (pid :: seen) (found ++ [item_to_playlist langField pid it]) h1' h2'
            refine ⟨?_, ?_, ?_⟩ <;>
              simp only [collect_items, hid, if_neg hseen, if_neg hlim]
            · exact hrec.1
            · exact hrec.2.1
            · exact fun s hs => hrec.2.2 s (List.mem_cons_of_mem _ hs)

/-- Invariant of the query loop: a successful `gather` whose accumulator
satisfies the seen/Nodup invariant yields a `found` list with pairwise
distinct ids. -/
lemma gather_inv (search : Search) (limit : Int) (langField : String) :
    ∀ (queries : List String) (seen : List String) (found : List Playlist)
      (out : List Playlist),
      (found.filterMap Playlist.id).Nodup →
      (∀ p ∈ found, ∀ i, p.id = some i → i ∈ seen) →
      gather search limit langField queries seen found = Except.ok out →
      (out.filterMap Playlist.id).Nodup := by
  intro queries
  induction queries with
  | nil =>
    intro seen found out h1 h2 hg
    unfold gather at hg
    cases hg
    exact h1
  | cons q qs ih =>
    intro seen found out h1 h2 hg
    unfold gather at hg
    cases hs : search q limit with
    | error e =>
      rw [hs] at hg
      dsimp only at hg
      exact absurd hg (by simp)
    | ok items =>
      rw [hs] at hg
      dsimp only at hg
      have hinv := collect_items_inv limit langField items seen found h1 h2
      by_cases hlim : limit ≤
          (((collect_items limit langField items seen found).2.length : Int))
      · rw [if_pos hlim] at hg
        cases hg
        exact hinv.1
      · rw [if_neg hlim] at hg
        exact ih _ _ out hinv.1 hinv.2.1 hg

/-- C3: with the provider unconfigured, `get_recommended_playlists("happy", 3)`
returns exactly the 3 static happy catalog entries in catalog order, and each
returned entry displays source `Default` (the entries carry no `source` key;
the dashboard accessor `playlist.get('source', 'Default')` renders them as
`Default`). -/
theorem happy_unconfigured_three_defaults (st : RecState) (search : Search)
    (h : st.spotify_configured = false) :
    get_recommended_playlists st search "happy" 3 none =
      [stub "Happy Hits" "37i9dQZF1DX3XNs9D5lWnM",
       stub "Dance Party" "37i9dQZF1DXcBWIGoYBM5M",
       stub "Pop Mix" "37i9dQZF1DXcF6B6QPhFDv"] ∧
    ∀ p ∈ get_recommended_playlists st search "happy" 3 none,
      source_display p = "Default" := by
  rw [get_rec_unconfigured st search "happy" 3 none h]
  exact ⟨by decide, by decide⟩

/-- Witness for C3 at the freshly initialized engine and a trivial oracle. -/
theorem happy_unconfigured_three_defaults_witness :
    initState.spotify_configured = false ∧
    (get_recommended_playlists initState noResults "happy" 3 none =
      [stub "Happy Hits" "37i9dQZF1DX3XNs9D5lWnM",
       stub "Dance Party" "37i9dQZF1DXcBWIGoYBM5M",
       stub "Pop Mix" "37i9dQZF1DXcF6B6QPhFDv"] ∧
     ∀ p ∈ get_recommended_playlists initState noResults "happy" 3 none,
       source_display p = "Default") :=
  ⟨rfl, happy_unconfigured_three_defaults initState noResults rfl⟩

/-- C5: an emotion outside the known 7-label set behaves identically to
`neutral`, for every engine state, oracle, limit and language. -/
theorem unknown_emotion_equals_neutral (st : RecState) (search : Search)
    (e : String) (limit : Int) (lang : Option String)
    (h : emotion_to_genre e = none) :
    get_recommended_playlists st search e limit lang =
      get_recommended_playlists st search "neutral" limit lang := by
  have h1 : normalize_emotion e = "neutral" := by simp [normalize_emotion, h]
  have h2 : normalize_emotion "neutral" = "neutral" := by decide
  simp [get_recommended_playlists, h1, h2]

/-- Witness for C5 at the scenario of the spec: `unknown_label` vs `neutral`. -/
theorem unknown_emotion_equals_neutral_witness :
    emotion_to_genre "unknown_label" = none ∧
    get_recommended_playlists initState noResults "unknown_label" 2 none =
      get_recommended_playlists initState noResults "neutral" 2 none :=
  ⟨by decide,
   unknown_emotion_equals_neutral initState noResults "unknown_label" 2 none (by decide)⟩

/-- C7: each known misspelled alias (`telegu`, `hindhi`, `bangla`) yields, for
every emotion, the same localized default sequence as its canonical spelling. -/
theorem alias_language_same_defaults (emotion : String) :
    language_defaults emotion (some "telegu") =
      language_defaults emotion (some "telugu") ∧
    language_defaults emotion (some "hindhi") =
      language_defaults emotion (some "hindi") ∧
    language_defaults emotion (some "bangla") =
      language_defaults emotion (some "bengali") := by
  have h1 : language_normalize (some "telegu") = language_normalize (some "telugu") := by decide
  have h2 : language_normalize (some "hindhi") = language_normalize (some "hindi") := by decide
  have h3 : language_normalize (some "bangla") = language_normalize (some "bengali") := by decide
  exact ⟨by simp only [language_defaults]; rw [h1],
         by simp only [language_defaults]; rw [h2],
         by simp only [language_defaults]; rw [h3]⟩

/-- C8: with the provider unconfigured, a call leaves the engine state
untouched and a second identical call returns the identical ordered list
(the method body performs no assignment to `self`). -/
theorem unconfigured_calls_idempotent (st : RecState) (search : Search)
    (e : String) (limit : Int) (lang : Option String)
    (h : st.spotify_configured = false) :
    (get_recommended_playlists_run st search e limit lang).2 = st ∧
    (get_recommended_playlists_run
        (get_recommended_playlists_run st search e limit lang).2
        search e limit lang).1 =
      (get_recommended_playlists_run st search e limit lang).1 :=
  ⟨rfl, rfl⟩

/-- Witness for C8 at a concrete unconfigured call. -/
theorem unconfigured_calls_idempotent_witness :
    (get_recommended_playlists_run initState noResults "sad" 3 (some "telugu")).2 = initState ∧
    (get_recommended_playlists_run
        (get_recommended_playlists_run initState noResults "sad" 3 (some "telugu")).2
        noResults "sad" 3 (some "telugu")).1 =
      (get_recommended_playlists_run initState noResults "sad" 3 (some "telugu")).1 :=
  unconfigured_calls_idempotent initState noResults "sad" 3 (some "telugu") rfl

/-- C2 (amended): for `limit = 0` the call returns the empty list, for every
engine state, oracle, emotion and language. -/
theorem limit_zero_returns_empty (st : RecState) (search : Search)
    (e : String) (lang : Option String) :
    get_recommended_playlists st search e 0 lang = [] := by
  simp [get_recommended_playlists, pySlice]

/-- C2 (counterexample): at `limit = -1` the unconfigured happy call returns a
nonempty list (Python's `playlists[:-1]` keeps all but the last entry), so
"every limit <= 0 returns an empty sequence" fails. -/
theorem negative_limit_returns_nonempty :
    get_recommended_playlists initState noResults "happy" (-1) none ≠ [] := by
  decide

/-- C6 (amended): with the provider unconfigured, a language that resolves to
no localized-catalog key is treated as "no preference" — the call behaves
identically to the same call with no language argument (and the embedding is
total, so no error is raised).  With the provider configured this fails: the
unrecognized string still feeds the search queries (see the counterexample). -/
theorem unknown_language_no_preference (st : RecState) (search : Search)
    (e : String) (limit : Int) (s : String)
    (hst : st.spotify_configured = false)
    (hlang : language_recognized s = false) :
    get_recommended_playlists st search e limit (some s) =
      get_recommended_playlists st search e limit none := by
  have hld : ∀ em, language_defaults em (some s) = [] := by
    intro em
    have hlang1 := hlang
    unfold language_recognized at hlang1
    cases hn : language_normalize (some s) with
    | none => simp [language_defaults, hn]
    | some l =>
      rw [hn] at hlang1
      dsimp only at hlang1
      by_cases hl : l = ""
      · simp [language_defaults, hn, hl]
      · cases hd : default_playlists_by_language l with
        | none => simp [language_defaults, hn, hl, hd]
        | some m => rw [hd] at hlang1; simp at hlang1
  rw [get_rec_unconfigured st search e limit (some s) hst,
    get_rec_unconfigured st search e limit none hst]
  simp only [static_recommendation]
  rw [hld (normalize_emotion e)]
  simp [language_defaults, language_normalize]

/-- Witness for C6 (amended) at the unconfigured engine and language `klingon`. -/
theorem unknown_language_no_preference_witness :
    initState.spotify_configured = false ∧
    language_recognized "klingon" = false ∧
    get_recommended_playlists initState noResults "happy" 2 (some "klingon") =
      get_recommended_playlists initState noResults "happy" 2 none :=
  ⟨rfl, by decide,
   unknown_language_no_preference initState noResults "happy" 2 "klingon" rfl (by decide)⟩

/-- C6 (counterexample): with the provider configured, language `klingon`
(neither canonical nor an alias) is NOT treated as "no preference": the
queries built from it hit the provider and the result differs from the same
call without a language. -/
theorem unknown_language_differs_configured :
    get_recommended_playlists cfgState oracleC6 "happy" 1 (some "klingon") ≠
      get_recommended_playlists cfgState oracleC6 "happy" 1 none := by
  decide

/-- C9: `setup_spotify` returns false when a credential is empty or the
connectivity probe raises, never moves `spotify_configured` on failure (so a
failing call from the unconfigured state leaves the engine static-only), and
on truthy credentials with a successful probe returns true and lands in the
configured state; the configured flag is never cleared (one-way transition). -/
theorem setup_spotify_contract (st : RecState) (probe : Probe)
    (cid cs : String) :
    (¬ (strTruthy cid = true ∧ strTruthy cs = true) →
      setup_spotify st probe cid cs = (false, st)) ∧
    (∀ e : Unit, probe cid cs = Except.error e →
      (setup_spotify st probe cid cs).1 = false ∧
      (setup_spotify st probe cid cs).2.spotify_configured = st.spotify_configured) ∧
    (strTruthy cid = true → strTruthy cs = true → probe cid cs = Except.ok () →
      setup_spotify st probe cid cs = (true, ⟨true, true⟩)) ∧
    (st.spotify_configured = true →
      (setup_spotify st probe cid cs).2.spotify_configured = true) ∧
    ((setup_spotify st probe cid cs).1 = false → st.spotify_configured = false →
      (setup_spotify st probe cid cs).2.spotify_configured = false ∧
      ∀ (search : Search) (e : String) (limit : Int) (lang : Option String),
        get_recommended_playlists (setup_spotify st probe cid cs).2
            search e limit lang =
          static_recommendation e limit lang) := by
  refine ⟨?_, ?_, ?_, ?_, ?_⟩
  · intro hn
    unfold setup_spotify
    rw [if_neg hn]
  · intro e hp
    unfold setup_spotify
    by_cases hc : (strTruthy cid = true ∧ strTruthy cs = true)
    · rw [if_pos hc, hp]
      exact ⟨rfl, rfl⟩
    · rw [if_neg hc]
      exact ⟨rfl, rfl⟩
  · intro h1 h2 hp
    unfold setup_spotify
    rw [if_pos ⟨h1, h2⟩, hp]
  · intro hcfg
    unfold setup_spotify
    by_cases hc : (strTruthy cid = true ∧ strTruthy cs = true)
    · cases hp : probe cid cs with
      | ok u => rw [if_pos hc]
      | error e => rw [if_pos hc]; exact hcfg
    · rw [if_neg hc]; exact hcfg
  · intro hfalse hunc
    have hkeep : (setup_spotify st probe cid cs).2.spotify_configured = false := by
      unfold setup_spotify at hfalse ⊢
      by_cases hc : (strTruthy cid = true ∧ strTruthy cs = true)
      · cases hp : probe cid cs with
        | ok u =>
          rw [if_pos hc, hp] at hfalse
          exact absurd hfalse (by simp)
        | error e =>
          rw [if_pos hc]
          exact hunc
      · rw [if_neg hc]
        exact hunc
    exact ⟨hkeep, fun search e limit lang =>
      get_rec_unconfigured _ search e limit lang hkeep⟩

/-- Witness for C9: empty credential, raising probe, and successful probe,
all from the freshly initialized state. -/
theorem setup_spotify_contract_witness :
    setup_spotify initState okProbe "" "secret" = (false, initState) ∧
    (setup_spotify initState failProbe "id" "secret").1 = false ∧
    (setup_spotify initState failProbe "id" "secret").2.spotify_configured =
      initState.spotify_configured ∧
    setup_spotify initState okProbe "id" "secret" = (true, ⟨true, true⟩) :=
  ⟨(setup_spotify_contract initState okProbe "" "secret").1 (by decide),
   ((setup_spotify_contract initState failProbe "id" "secret").2.1 () rfl).1,
   ((setup_spotify_contract initState failProbe "id" "secret").2.1 () rfl).2,
   (setup_spotify_contract initState okProbe "id" "secret").2.2.1
     (by decide) (by decide) rfl⟩

/-- C10: the enrichment pass preserves the length and order of the playlist
list and leaves every entry's `name` (and `description`) unchanged, so an
output entry can differ from its input entry only in `id`, `url`,
`tracks_total`, `source` and `language`. -/
theorem enrich_step_frame (st : RecState) (search : Search)
    (language : Option String) (ps : List Playlist) :
    (enrich_step st search language ps).length = ps.length ∧
    (enrich_step st search language ps).map Playlist.name =
      ps.map Playlist.name ∧
    (enrich_step st search language ps).map Playlist.description =
      ps.map Playlist.description := by
  refine ⟨?_, enrich_step_names st search language ps,
    enrich_step_descriptions st search language ps⟩
  have h := congrArg List.length (enrich_step_names st search language ps)
  simpa using h

/-- C1 (amended): with the provider configured and the search pass gathering
at least one result, the returned names are the `limit`-slice of: provider
search results first, then localized static defaults, then generic static
defaults, each group in its source order (pure assembly order, no numeric
scoring; the enrichment pass keeps names and positions). -/
theorem provider_results_rank_first (st : RecState) (search : Search)
    (emotion : String) (limit : Int) (language : Option String)
    (found : List Playlist)
    (hcfg : st.spotify_configured = true) (hcl : st.spotify_client = true)
    (hg : gather search limit (pyOrStr (language_normalize language) "auto")
        (build_queries (normalize_emotion emotion)
          (get_emotion_info (normalize_emotion emotion))
          (language_normalize language)) [] [] = Except.ok found)
    (hne : found ≠ []) :
    (get_recommended_playlists st search emotion limit language).map
        Playlist.name =
      pySlice ((found ++ language_defaults (normalize_emotion emotion) language
        ++ default_playlists (normalize_emotion emotion)).map Playlist.name)
        limit := by
  have hseed : (if language_defaults (normalize_emotion emotion) language ≠ [] then
      language_defaults (normalize_emotion emotion) language ++
        default_playlists (normalize_emotion emotion)
    else default_playlists (normalize_emotion emotion)) =
      language_defaults (normalize_emotion emotion) language ++
        default_playlists (normalize_emotion emotion) := by
    by_cases hld : language_defaults (normalize_emotion emotion) language = [] <;>
      simp [hld]
  have hstep : search_step st search (normalize_emotion emotion) limit language
      (language_defaults (normalize_emotion emotion) language ++
        default_playlists (normalize_emotion emotion)) =
      found ++ (language_defaults (normalize_emotion emotion) language ++
        default_playlists (normalize_emotion emotion)) := by
    unfold search_step
    rw [if_pos ⟨hcfg, hcl⟩]
    dsimp only
    rw [hg]
    dsimp only
    rw [if_pos hne]
  unfold get_recommended_playlists
  dsimp only
  rw [hseed, hstep, pySlice_map, enrich_step_names, List.append_assoc]

/-- Witness for C1 (amended): telugu/happy with one gathered provider hit. -/
theorem provider_results_rank_first_witness :
    gather oracleC1 3 (pyOrStr (language_normalize (some "telugu")) "auto")
        (build_queries (normalize_emotion "happy")
          (get_emotion_info (normalize_emotion "happy"))
          (language_normalize (some "telugu"))) [] [] =
      Except.ok [item_to_playlist "telugu" "PX1" itemPX1] ∧
    (get_recommended_playlists cfgState oracleC1 "happy" 3 (some "telugu")).map
        Playlist.name =
      pySlice (([item_to_playlist "telugu" "PX1" itemPX1] ++
        language_defaults (normalize_emotion "happy") (some "telugu") ++
        default_playlists (normalize_emotion "happy")).map Playlist.name) 3 := by
  have hg : gather oracleC1 3 (pyOrStr (language_normalize (some "telugu")) "auto")
      (build_queries (normalize_emotion "happy")
        (get_emotion_info (normalize_emotion "happy"))
        (language_normalize (some "telugu"))) [] [] =
      Except.ok [item_to_playlist "telugu" "PX1" itemPX1] := rfl
  exact ⟨hg, provider_results_rank_first cfgState oracleC1 "happy" 3
    (some "telugu") [item_to_playlist "telugu" "PX1" itemPX1] rfl rfl hg
    (by decide)⟩

/-- C1 (counterexample): the claim's order "localized first, then provider"
fails — at the telugu/happy call with one provider hit, the provider entry
comes first and the localized static entry second. -/
theorem localized_first_ordering_fails :
    (get_recommended_playlists cfgState oracleC1 "happy" 3 (some "telugu")).map
        Playlist.name =
      ["Prov Mix", "Telugu Party", "Happy Hits"] ∧
    (get_recommended_playlists cfgState oracleC1 "happy" 3 (some "telugu")).map
        Playlist.name ≠
      ["Telugu Party", "Prov Mix", "Happy Hits"] := by
  exact ⟨by decide, by decide⟩

/-- C4 (amended): de-duplication holds within the provider search pass — a
successful `gather` starting from an empty seen-set returns provider entries
with pairwise distinct ids, even when queries overlap.  The full returned
list may still repeat ids, because static defaults are not cross-deduplicated
(see the counterexample). -/
theorem search_pass_ids_nodup (search : Search) (limit : Int)
    (langField : String) (queries : List String) (found : List Playlist)
    (hg : gather search limit langField queries [] [] = Except.ok found) :
    (found.filterMap Playlist.id).Nodup :=
  gather_inv search limit langField queries [] [] found (by simp) (by simp) hg

/-- Witness for C4 (amended): the telugu/angry query list against an oracle
returning the same id for two queries gathers that id exactly once. -/
theorem search_pass_ids_nodup_witness :
    gather oracleC4 4 "telugu"
        ["telugu intense music", "telugu angry playlist",
         "telugu rock playlist", "telugu metal playlist"] [] [] =
      Except.ok [item_to_playlist "telugu" "AX1" itemAX1] ∧
    ([item_to_playlist "telugu" "AX1" itemAX1].filterMap Playlist.id).Nodup := by
  have hg : gather oracleC4 4 "telugu"
      ["telugu intense music", "telugu angry playlist",
       "telugu rock playlist", "telugu metal playlist"] [] [] =
      Except.ok [item_to_playlist "telugu" "AX1" itemAX1] := rfl
  exact ⟨hg, search_pass_ids_nodup oracleC4 4 "telugu"
    ["telugu intense music", "telugu angry playlist",
     "telugu rock playlist", "telugu metal playlist"]
    [item_to_playlist "telugu" "AX1" itemAX1] hg⟩

/-- C4 (counterexample): even when the provider returned overlapping ids
across queries (deduplicated in the search pass), the final returned list
repeats an id — two static angry defaults share the same catalog id. -/
theorem final_list_repeats_ids :
    ¬ ((get_recommended_playlists cfgState oracleC4 "angry" 4
        (some "telugu")).filterMap Playlist.id).Nodup := by
  decide
